import Mathlib

/-
Verification of the review-slot-guard-bot repository.

Shallow embedding of the Go sources:
 - functions/periodic_job/main.go           (reconciliation driver and state machine)
 - functions/telegram_handler/.../commands.go (command surface and callback dispatch)
 - handlers callbacks (HandleApprove / HandleDecline)

Wall-clock times are unix seconds as Int; durations are whole minutes as
Int, matching the Go models (int64 unix seconds, int32 minute settings).
Database and network calls are modelled by explicit inputs: an Env record
of oracles for the external collaborators, and Option/Bool results for
fallible sends and updates.
-/

namespace ReviewSlotGuard

/-- Review request status, the ten string constants of the models package
(pinned by IsValidStatus / IsIntermediateStatus / IsFinalStatus tests). -/
inductive Status where
  | unknownProjectReview
  | knownProjectReview
  | whitelisted
  | notWhitelisted
  | needToApprove
  | waitingForApprove
  | approved
  | cancelled
  | autoCancelled
  | autoCancelledNotWhitelisted
deriving DecidableEq, Repr

/-- models.IsFinalStatus: the four terminal statuses. -/
def Status.isFinal : Status → Bool
  | .approved => true
  | .cancelled => true
  | .autoCancelled => true
  | .autoCancelledNotWhitelisted => true
  | _ => false

/-- models.UserSettings (the seven tunable fields; minute durations as Int). -/
structure UserSettings where
  responseDeadlineShiftMinutes : Int
  nonWhitelistCancelDelayMinutes : Int
  notifyWhitelistTimeout : Bool
  notifyNonWhitelistCancel : Bool
  slotShiftThresholdMinutes : Int
  slotShiftDurationMinutes : Int
  cleanupDurationsMinutes : Int
deriving DecidableEq, Repr

/-- models.User (the fields the embedded handlers read). -/
structure User where
  reviewerLogin : String
  telegramChatId : Int
deriving DecidableEq, Repr

/-- models.ReviewRequest, the core entity (times in unix seconds). -/
structure ReviewRequest where
  id : String
  reviewerLogin : String
  notificationId : Option String := none
  projectName : Option String := none
  familyLabel : Option String := none
  reviewStartTime : Int
  calendarSlotId : String
  decisionDeadline : Option Int := none
  nonWhitelistCancelAt : Option Int := none
  telegramMessageId : Option String := none
  status : Status
  createdAt : Int
  decidedAt : Option Int := none
deriving DecidableEq, Repr

/-- external.CalendarBooking as consumed by checkNewBookings. -/
structure CalendarBooking where
  id : String
  eventSlotId : String
  startTime : Int
  endTime : Int
deriving DecidableEq, Repr

/-- Modelled from the spec: timeutil.CalculateDecisionDeadline, whose
implementation is absent from src/ (only common/pkg/timeutil/time_test.go
is present).  The test pins deadline = reviewTime minus shift minutes. -/
def calculateDecisionDeadline (reviewStart shiftMinutes : Int) : Int :=
  reviewStart - shiftMinutes * 60

/-- Modelled from the spec: timeutil.MinutesUntil, absent from src/; its
test pins the value only to within one minute.  Defined as the ceiling of
(t - now)/60, the reading on which the driver comparison
MinutesUntil deadline <= 0 coincides with the spec condition now >= deadline. -/
def minutesUntil (now t : Int) : Int :=
  -((now - t) / 60)

/-- Modelled from the spec: timeutil.ShouldShiftSlot, absent from src/.
The spec declares the threshold comparison inclusive, and the repository
documents shouldShift as (now + threshold).After(slot) or Equal
(periodic_test.go), i.e. slot <= now + threshold minutes. -/
def shouldShiftSlot (now slotTime thresholdMinutes : Int) : Bool :=
  decide (slotTime ≤ now + thresholdMinutes * 60)

/-- Modelled from the spec: timeutil.CalculateSlotDuration, absent from
src/; its tests pin whole minutes between start and end (90 for 1.5 h). -/
def calculateSlotDuration (startTime endTime : Int) : Int :=
  (endTime - startTime) / 60

/-- Modelled from the spec: timeutil.CalculateNonWhitelistCancelTime,
absent from src/; its test pins now + delay minutes. -/
def calculateNonWhitelistCancelTime (now delayMinutes : Int) : Int :=
  now + delayMinutes * 60

/-- Modelled from the spec: telegram.FormatCallbackData, absent from src/;
its test pins the wire format ACTION:review_id. -/
def formatCallbackData (action reviewRequestId : String) : String :=
  action ++ ":" ++ reviewRequestId

/-- Modelled from the spec: telegram.splitData with n = 2, absent from
src/; its test pins a split at the first colon, returning a one-element
list (here: none) when no colon occurs. -/
def splitDataAux : List Char → Option (List Char × List Char)
  | [] => none
  | c :: rest =>
    if c = ':' then some ([], rest)
    else
      match splitDataAux rest with
      | none => none
      | some (pre, post) => some (c :: pre, post)

/-- Modelled from the spec: telegram.ParseCallbackData, absent from src/.
Its tests pin: split on the first colon (later colons stay in the id);
error when there is no colon, when the action is not APPROVE or DECLINE,
and when the id part is empty (the input APPROVE: is an error). -/
def parseCallbackData (s : String) : Option (String × String) :=
  match splitDataAux s.data with
  | none => none
  | some (actionChars, idChars) =>
    let action := String.mk actionChars
    if (action = "APPROVE" ∨ action = "DECLINE") ∧ idChars ≠ [] then
      some (action, String.mk idChars)
    else none

/-- Side-effect intents the periodic job dispatches to the calendar and
chat adapters (logic.CancelCalendarSlot, logic.ChangeCalendarSlot,
SendTwoButtonKeyboard, the two notification senders). -/
inductive PEffect where
  | cancelSlot (slotId : String)
  | changeSlot (slotId : String) (newStart newEnd : Int)
  | sendPrompt (chatId : Int) (approveData declineData : String)
  | notifyTimeout
  | notifyNonWhitelistCancel
deriving DecidableEq, Repr

/-- Oracles for the external collaborators one tick consults: the clock,
notification and family-index resolution (processUnknownProjectReview),
the whitelist query, the outcome of the Telegram prompt send
(none = send failed), the outcome of ChangeEventSlot, and uuid.New. -/
structure Env where
  now : Int
  resolveProject : Option String → Option (String × String)
  inWhitelist : String → String → Bool
  sendResult : String → Option Int
  changeOk : String → Bool
  freshId : String → String

/-- main.go processUnknownProjectReview: resolve project and family from
the notification; on failure the review is left unchanged (retried next
tick), on success it moves to KNOWN_PROJECT_REVIEW. -/
def processUnknownProjectReview (env : Env) (req : ReviewRequest) :
    List PEffect × ReviewRequest :=
  match env.resolveProject req.notificationId with
  | none => ([], req)
  | some (p, f) =>
    ([], { req with projectName := some p, familyLabel := some f,
                    status := .knownProjectReview })

/-- main.go processKnownProjectReview (lines 153-208): needToAskNow is
MinutesUntil(deadline) <= 0 or ShouldShiftSlot; it wins over the
whitelist; otherwise WHITELISTED when matched, else NOT_WHITELISTED with
non_whitelist_cancel_at = now + delay. -/
def processKnownProjectReview (env : Env) (settings : UserSettings)
    (inWhitelist : Bool) (req : ReviewRequest) :
    List PEffect × ReviewRequest :=
  let deadline := calculateDecisionDeadline req.reviewStartTime
    settings.responseDeadlineShiftMinutes
  let minutesUntilDeadline := minutesUntil env.now deadline
  let needToAskNow := decide (minutesUntilDeadline ≤ 0) ||
    shouldShiftSlot env.now req.reviewStartTime settings.slotShiftThresholdMinutes
  if needToAskNow then
    ([], { req with status := .needToApprove })
  else if inWhitelist then
    ([], { req with status := .whitelisted })
  else
    ([], { req with status := .notWhitelisted,
                    nonWhitelistCancelAt := some (calculateNonWhitelistCancelTime
                      env.now settings.nonWhitelistCancelDelayMinutes) })

/-- main.go processWhitelisted (lines 211-260).  The slot end passed to
CalculateSlotDuration mirrors line 216 verbatim:
reviewStartTime.Add(time.Duration(req.ReviewStartTime) * time.Second),
i.e. start + start-as-seconds, so slotDuration = ReviewStartTime / 60. -/
def processWhitelisted (env : Env) (settings : UserSettings)
    (req : ReviewRequest) : List PEffect × ReviewRequest :=
  if shouldShiftSlot env.now req.reviewStartTime settings.slotShiftThresholdMinutes then
    let slotDuration := calculateSlotDuration req.reviewStartTime
      (req.reviewStartTime + req.reviewStartTime)
    if slotDuration ≤ settings.cleanupDurationsMinutes then
      ([.cancelSlot req.calendarSlotId],
       { req with status := .autoCancelled, decidedAt := some env.now })
    else
      let newStartTime := req.reviewStartTime - settings.slotShiftDurationMinutes * 60
      let newEndTime := newStartTime + slotDuration * 60
      if env.changeOk req.calendarSlotId then
        ([.changeSlot req.calendarSlotId newStartTime newEndTime], req)
      else
        ([.changeSlot req.calendarSlotId newStartTime newEndTime,
          .cancelSlot req.calendarSlotId],
         { req with status := .autoCancelled, decidedAt := some env.now })
  else ([], req)

/-- main.go processNotWhitelisted (lines 263-294): nil cancel time is an
error (review unchanged); time.Now().After(cancelTime) is strict. -/
def processNotWhitelisted (env : Env) (settings : UserSettings)
    (req : ReviewRequest) : List PEffect × ReviewRequest :=
  match req.nonWhitelistCancelAt with
  | none => ([], req)
  | some cancelAt =>
    if env.now > cancelAt then
      ((if settings.notifyNonWhitelistCancel then [.notifyNonWhitelistCancel] else [])
        ++ [.cancelSlot req.calendarSlotId],
       { req with status := .autoCancelledNotWhitelisted, decidedAt := some env.now })
    else ([], req)

/-- main.go processNeedToApprove (lines 297-331): send the two-button
prompt; only when the send returned a message id is the review advanced
to WAITING_FOR_APPROVE with decision_deadline and the message id; a
failed send returns before any write, leaving the review unchanged. -/
def processNeedToApprove (env : Env) (user : User) (settings : UserSettings)
    (req : ReviewRequest) : List PEffect × ReviewRequest :=
  let deadline := calculateDecisionDeadline req.reviewStartTime
    settings.responseDeadlineShiftMinutes
  let approveData := formatCallbackData "APPROVE" req.id
  let declineData := formatCallbackData "DECLINE" req.id
  match env.sendResult req.id with
  | none => ([.sendPrompt user.telegramChatId approveData declineData], req)
  | some messageId =>
    ([.sendPrompt user.telegramChatId approveData declineData],
     { req with status := .waitingForApprove,
                decisionDeadline := some deadline,
                telegramMessageId := some (toString messageId) })

/-- main.go processWaitingForApprove (lines 334-365): nil deadline is an
error (review unchanged); time.Now().After(deadline) is strict; on
timeout, conditionally NotifyTimeout, then CancelSlot, then AUTO_CANCELLED. -/
def processWaitingForApprove (env : Env) (settings : UserSettings)
    (req : ReviewRequest) : List PEffect × ReviewRequest :=
  match req.decisionDeadline with
  | none => ([], req)
  | some deadline =>
    if env.now > deadline then
      ((if settings.notifyWhitelistTimeout then [.notifyTimeout] else [])
        ++ [.cancelSlot req.calendarSlotId],
       { req with status := .autoCancelled, decidedAt := some env.now })
    else ([], req)

/-- main.go processReviewRequest: dispatch on the status switch; a
terminal status is unexpected there and returns an error, leaving the
review unchanged. -/
def processReviewRequest (env : Env) (user : User) (settings : UserSettings)
    (req : ReviewRequest) : List PEffect × ReviewRequest :=
  match req.status with
  | .unknownProjectReview => processUnknownProjectReview env req
  | .knownProjectReview =>
    processKnownProjectReview env settings
      (env.inWhitelist (req.projectName.getD "") (req.familyLabel.getD "")) req
  | .whitelisted => processWhitelisted env settings req
  | .notWhitelisted => processNotWhitelisted env settings req
  | .needToApprove => processNeedToApprove env user settings req
  | .waitingForApprove => processWaitingForApprove env settings req
  | _ => ([], req)

/-- The six statuses main.go processUser fetches each tick (the
GetReviewRequestsByUserAndStatus argument list). -/
def intermediateStatuses : List Status :=
  [.unknownProjectReview, .knownProjectReview, .whitelisted,
   .notWhitelisted, .needToApprove, .waitingForApprove]

/-- The fresh review request main.go checkNewBookings creates for an
unguarded booking: status UNKNOWN_PROJECT_REVIEW, created_at = now,
notification_id = booking.ID. -/
def newReviewRequest (env : Env) (user : User) (booking : CalendarBooking) :
    ReviewRequest :=
  { id := env.freshId booking.eventSlotId
    reviewerLogin := user.reviewerLogin
    notificationId := some booking.id
    reviewStartTime := booking.startTime
    calendarSlotId := booking.eventSlotId
    status := .unknownProjectReview
    createdAt := env.now }

/-- main.go checkNewBookings (lines 368-415): for each booking, skip when
any review request (of any status) already exists for its slot id,
otherwise create a fresh UNKNOWN_PROJECT_REVIEW request. -/
def checkNewBookings (env : Env) (user : User) (reviews : List ReviewRequest) :
    List CalendarBooking → List ReviewRequest
  | [] => reviews
  | booking :: rest =>
    if reviews.any (fun r => r.calendarSlotId == booking.eventSlotId) then
      checkNewBookings env user reviews rest
    else
      checkNewBookings env user (reviews ++ [newReviewRequest env user booking]) rest

/-- One review of the stored list as main.go processUser touches it: only
reviews whose status is in the fetched intermediate list are stepped. -/
def stepIfIntermediate (env : Env) (user : User) (settings : UserSettings)
    (r : ReviewRequest) : ReviewRequest :=
  if r.status ∈ intermediateStatuses then (processReviewRequest env user settings r).2
  else r

/-- main.go processUser for one reviewer: step every fetched in-flight
review request first, then ingest new calendar bookings. -/
def processUser (env : Env) (user : User) (settings : UserSettings)
    (reviews : List ReviewRequest) (bookings : List CalendarBooking) :
    List ReviewRequest :=
  checkNewBookings env user (reviews.map (stepIfIntermediate env user settings)) bookings

/-- The prompt message texts the callback handlers write when editing
(the formatted body is presentation; only its kind and data are modelled). -/
inductive MsgText where
  | approvedText (project : String) (reviewStart : Int)
  | cancelledText (project : String) (reviewStart : Int)
deriving DecidableEq, Repr

/-- Side-effect intents of the Telegram callback path. -/
inductive CbEffect where
  | answerCallback (text : String)
  | updateStatus (reqId : String) (status : Status) (decidedAt : Option Int)
  | editMessage (chatId : Int) (messageId : String) (text : MsgText)
  | cancelSlot (slotId : String)
deriving DecidableEq, Repr

/-- handlers.getProjectName. -/
def getProjectName (req : ReviewRequest) : String :=
  req.projectName.getD "Unknown Project"

/-- handlers.HandleApprove: unconditionally writes APPROVED with a fresh
decided_at, edits the prompt when a message id is stored, and answers the
callback; tokensOk / updateOk model the two fallible calls. -/
def handleApprove (now : Int) (tokensOk updateOk : Bool) (user : User)
    (req : ReviewRequest) : List CbEffect :=
  if !tokensOk then [.answerCallback "Failed to get tokens"]
  else if !updateOk then
    [.updateStatus req.id .approved (some now),
     .answerCallback "Failed to update status"]
  else
    [.updateStatus req.id .approved (some now)] ++
    (match req.telegramMessageId with
     | some m => [.editMessage user.telegramChatId m
         (.approvedText (getProjectName req) req.reviewStartTime)]
     | none => []) ++
    [.answerCallback "Review approved!"]

/-- handlers.HandleDecline: cancel the slot (failure logged, ignored),
write CANCELLED, edit the prompt, answer the callback. -/
def handleDecline (now : Int) (tokensOk updateOk : Bool) (user : User)
    (req : ReviewRequest) : List CbEffect :=
  if !tokensOk then [.answerCallback "Failed to get tokens"]
  else if !updateOk then
    [.cancelSlot req.calendarSlotId,
     .updateStatus req.id .cancelled (some now),
     .answerCallback "Failed to update status"]
  else
    [.cancelSlot req.calendarSlotId,
     .updateStatus req.id .cancelled (some now)] ++
    (match req.telegramMessageId with
     | some m => [.editMessage user.telegramChatId m
         (.cancelledText (getProjectName req) req.reviewStartTime)]
     | none => []) ++
    [.answerCallback "Review cancelled"]

/-- telegram_handler handleCallbackQuery (commands.go lines 1518-1572):
resolve the user, parse the payload, load the review, check ownership,
then dispatch on the action.  No terminal-status check occurs anywhere on
this path. -/
def handleCallbackQuery (now : Int) (tokensOk updateOk : Bool)
    (userLookup : Option User) (data : String)
    (reviewLookup : Option ReviewRequest) : List CbEffect :=
  match userLookup with
  | none => [.answerCallback "User not found. Please use /start to authenticate."]
  | some user =>
    match parseCallbackData data with
    | none => [.answerCallback "Invalid callback data"]
    | some (action, _) =>
      match reviewLookup with
      | none => [.answerCallback "Review request not found"]
      | some req =>
        if req.reviewerLogin ≠ user.reviewerLogin then
          [.answerCallback "Access denied"]
        else if action = "APPROVE" then handleApprove now tokensOk updateOk user req
        else if action = "DECLINE" then handleDecline now tokensOk updateOk user req
        else [.answerCallback "Unknown action"]

/-- ASCII whitespace, for the strings.TrimSpace model. -/
def isSpaceChar (c : Char) : Bool :=
  c == ' ' || c == '\t' || c == '\n' || c == '\r'

/-- Modelled from the spec: strings.TrimSpace as the handlers use it
(ASCII whitespace suffices for command arguments). -/
def trimString (s : String) : String :=
  String.mk (((s.data.dropWhile isSpaceChar).reverse.dropWhile isSpaceChar).reverse)

/-- Digit accumulator for the strconv.Atoi model. -/
def parseNatAux : List Char → Nat → Option Nat
  | [], acc => some acc
  | c :: rest, acc =>
    if c.isDigit then parseNatAux rest (acc * 10 + (c.toNat - 48))
    else none

/-- Modelled from the spec: strconv.Atoi — an optional sign followed by at
least one decimal digit; anything else is an error. -/
def atoi (s : String) : Option Int :=
  match s.data with
  | [] => none
  | '-' :: rest =>
    if rest = [] then none else (parseNatAux rest 0).map (fun n => -(n : Int))
  | '+' :: rest =>
    if rest = [] then none else (parseNatAux rest 0).map (fun n => (n : Int))
  | cs => (parseNatAux cs 0).map (fun n => (n : Int))

/-- Modelled from the spec: strings.ToLower as the boolean settings use it
(ASCII lowering suffices for the recognised arguments). -/
def toLowerString (s : String) : String :=
  String.mk (s.data.map Char.toLower)

/-- Outcome of a numeric settings command (success emojis dropped from the
reply texts; otherwise the commands.go strings). -/
inductive SettingOutcome where
  | notAuthenticated (reply : String)
  | malformed (reply : String)
  | outOfRange (reply : String)
  | stored (field : String) (value : Int) (reply : String)
deriving DecidableEq, Repr

/-- commands.go handleNumericSetting (lines 449-481): resolve the user,
Atoi the trimmed argument (usage reply on failure), reject values outside
[minV, maxV], otherwise store and confirm.  The step parameter is used
only inside the usage text. -/
def handleNumericSetting (userFound : Bool) (field : String)
    (minV maxV stepV : Int) (arg : String) : SettingOutcome :=
  if !userFound then
    .notAuthenticated "User not found. Please use /start to authenticate."
  else
    match atoi (trimString arg) with
    | none =>
      .malformed ("Usage: /set_" ++ field ++ " <value>\n\nValid range: " ++
        toString minV ++ " - " ++ toString maxV ++ " (step " ++ toString stepV ++ ")")
    | some value =>
      if value < minV ∨ value > maxV then
        .outOfRange ("Value must be between " ++ toString minV ++ " and " ++ toString maxV)
      else
        .stored field value ("Setting updated to " ++ toString value)

/-- commands.go HandleSetDeadlineShift (line 196-198): it passes 20 as the
minimum, 60 as the maximum and step 1 to handleNumericSetting. -/
def handleSetDeadlineShift (userFound : Bool) (arg : String) : SettingOutcome :=
  handleNumericSetting userFound "response_deadline_shift_minutes" 20 60 1 arg

/-- Outcome of a boolean settings command. -/
inductive BoolSettingOutcome where
  | notAuthenticated (reply : String)
  | stored (field : String) (value : Bool) (reply : String)
deriving DecidableEq, Repr

/-- commands.go handleBooleanSetting (lines 483-509): lowercase the
trimmed argument; false exactly for false/no/0/off, true for everything
else; always store and reply success. -/
def handleBooleanSetting (userFound : Bool) (field : String) (arg : String) :
    BoolSettingOutcome :=
  if !userFound then
    .notAuthenticated "User not found. Please use /start to authenticate."
  else
    let a := toLowerString (trimString arg)
    let value := !(a == "false" || a == "no" || a == "0" || a == "off")
    .stored field value (field ++ " set to " ++ toString value)

/-! Concrete fixtures used by the closed theorems and witnesses.  Times
are around 2026-01-11 UTC (1768125600 = 10:00, 1768128000 = 10:40,
1768128300 = 10:45, 1768129200 = 11:00, 1768135500 = 12:45). -/

/-- The default settings DefaultUserSettings pins: shift 20, delay 5,
both notifications on, threshold 25, shift duration 15, cleanup 15. -/
def settings0 : UserSettings :=
  { responseDeadlineShiftMinutes := 20
    nonWhitelistCancelDelayMinutes := 5
    notifyWhitelistTimeout := true
    notifyNonWhitelistCancel := true
    slotShiftThresholdMinutes := 25
    slotShiftDurationMinutes := 15
    cleanupDurationsMinutes := 15 }

/-- An environment whose oracles are benign: whitelist matches, slot
changes succeed, prompt sends fail (overridden where needed). -/
def mkEnv (now : Int) : Env :=
  { now := now
    resolveProject := fun _ => none
    inWhitelist := fun _ _ => true
    sendResult := fun _ => none
    changeOk := fun _ => true
    freshId := fun slotId => "id-" ++ slotId }

/-- Reviewer fixture. -/
def userAlice : User := { reviewerLogin := "alice", telegramChatId := 100 }

/-- WHITELISTED review booked at 11:00 (scenario 1 of the spec). -/
def reqWhitelisted1 : ReviewRequest :=
  { id := "req-1", reviewerLogin := "alice", projectName := some "libft"
    reviewStartTime := 1768129200, calendarSlotId := "slot-1"
    status := .whitelisted, createdAt := 1768120000 }

/-- Review already terminal (APPROVED) with a stored prompt message id. -/
def reqApproved2 : ReviewRequest :=
  { id := "req-123", reviewerLogin := "alice", projectName := some "libft"
    reviewStartTime := 1768129200, calendarSlotId := "slot-123"
    telegramMessageId := some "55", status := .approved
    createdAt := 1768120000, decidedAt := some 1768125000 }

/-- WAITING_FOR_APPROVE review with decision deadline 10:40. -/
def reqWaiting3 : ReviewRequest :=
  { id := "req-3", reviewerLogin := "alice", projectName := some "libft"
    reviewStartTime := 1768129200, calendarSlotId := "slot-3"
    decisionDeadline := some 1768128000, telegramMessageId := some "7"
    status := .waitingForApprove, createdAt := 1768120000 }

/-- KNOWN_PROJECT_REVIEW review booked at 11:00. -/
def reqKnown4 : ReviewRequest :=
  { id := "req-4", reviewerLogin := "alice", projectName := some "libft"
    familyLabel := some "C - I", reviewStartTime := 1768129200
    calendarSlotId := "slot-4", status := .knownProjectReview
    createdAt := 1768120000 }

/-- NEED_TO_APPROVE review booked at 11:00. -/
def reqNeed5 : ReviewRequest :=
  { id := "req-5", reviewerLogin := "alice", projectName := some "libft"
    reviewStartTime := 1768129200, calendarSlotId := "slot-5"
    status := .needToApprove, createdAt := 1768120000 }

/-- Environment in which the Telegram prompt send succeeds with id 77. -/
def envSend : Env := { (mkEnv 1768128000) with sendResult := fun _ => some 77 }

/-! Claim theorems. -/

/-- C1: the claim says the WHITELISTED shift computes the slot length L
as end minus start in minutes and emits ChangeSlot with
new_end = new_start + L (12:45 in the spec scenario).  The code instead
derives the end as start + start-as-seconds (main.go line 216), so for a
booking at 2026-01-11 11:00 UTC it emits ChangeSlot with new_start 10:45
but new_end = 10:45 + 29468820 minutes, not 12:45. -/
theorem processWhitelisted_scenario1_unit_bug :
    processWhitelisted (mkEnv 1768128000) settings0 reqWhitelisted1 =
      ([PEffect.changeSlot "slot-1" 1768128300 3536257500], reqWhitelisted1) ∧
    (3536257500 : Int) ≠ 1768135500 := by
  exact ⟨by decide, by decide⟩

/-- C2: the claim says a second APPROVE callback on an already terminal
review only acknowledges "already decided" with no further writes.  The
callback path has no terminal-status guard: on an APPROVED review it
writes APPROVED again with a fresh decided_at, edits the message again
and acknowledges "Review approved!". -/
theorem handleCallbackQuery_second_approve_rewrites :
    handleCallbackQuery 1768126000 true true (some userAlice) "APPROVE:req-123"
        (some reqApproved2) =
      [CbEffect.updateStatus "req-123" .approved (some 1768126000),
       CbEffect.editMessage 100 "55" (.approvedText "libft" 1768129200),
       CbEffect.answerCallback "Review approved!"] ∧
    reqApproved2.status.isFinal = true := by
  exact ⟨by decide, by decide⟩

/-- C3 counterexample: at now exactly equal to the decision deadline the
WAITING_FOR_APPROVE tick transition does not fire (no effects, review
unchanged), contradicting the claimed inclusive comparison. -/
theorem processWaitingForApprove_at_deadline_no_timeout :
    processWaitingForApprove (mkEnv 1768128000) settings0 reqWaiting3 = ([], reqWaiting3) ∧
    (processWaitingForApprove (mkEnv 1768128000) settings0 reqWaiting3).2.status ≠
      Status.autoCancelled := by
  exact ⟨by decide, by decide⟩

/-- C3 (amended): the timeout transition of WAITING_FOR_APPROVE fires
exactly when now is strictly after decision_deadline
(time.Now().After(deadline)); at now = deadline nothing happens. -/
theorem processWaitingForApprove_strict_timeout (env : Env)
    (settings : UserSettings) (req : ReviewRequest) (d : Int)
    (hd : req.decisionDeadline = some d) :
    (d < env.now →
      processWaitingForApprove env settings req =
        ((if settings.notifyWhitelistTimeout then [PEffect.notifyTimeout] else [])
          ++ [PEffect.cancelSlot req.calendarSlotId],
         { req with status := .autoCancelled, decidedAt := some env.now })) ∧
    (env.now ≤ d →
      processWaitingForApprove env settings req = ([], req)) := by
  unfold processWaitingForApprove
  rw [hd]
  dsimp only
  constructor <;> intro h
  · rw [if_pos h]
  · rw [if_neg (by omega)]

/-- C3 witness: one minute past the deadline the review is auto-cancelled. -/
theorem processWaitingForApprove_strict_timeout_witness :
    (processWaitingForApprove (mkEnv 1768128060) settings0 reqWaiting3).2.status =
      Status.autoCancelled := by
  have h := (processWaitingForApprove_strict_timeout (mkEnv 1768128060) settings0
    reqWaiting3 1768128000 rfl).1 (by decide)
  rw [h]

/-- Bridge between the driver condition needToAskNow (MinutesUntil of the
deadline nonpositive, or ShouldShiftSlot) and the spec phrasing
(now at or past the deadline, or start within the shift threshold). -/
theorem needToAskNow_iff (env : Env) (settings : UserSettings) (req : ReviewRequest) :
    (decide (minutesUntil env.now (calculateDecisionDeadline req.reviewStartTime
        settings.responseDeadlineShiftMinutes) ≤ 0) ||
      shouldShiftSlot env.now req.reviewStartTime settings.slotShiftThresholdMinutes) = true ↔
    (req.reviewStartTime - settings.responseDeadlineShiftMinutes * 60 ≤ env.now ∨
     req.reviewStartTime - env.now ≤ settings.slotShiftThresholdMinutes * 60) := by
  simp only [minutesUntil, calculateDecisionDeadline, shouldShiftSlot,
    Bool.or_eq_true, decide_eq_true_eq]
  omega

/-- C4: in KNOWN_PROJECT_REVIEW the deadline condition (now at or past
review_start - response_deadline_shift, or review_start within
slot_shift_threshold of now) forces NEED_TO_APPROVE even when
whitelisted; only otherwise does the review go to WHITELISTED when
matched, or to NOT_WHITELISTED with
non_whitelist_cancel_at = now + non_whitelist_cancel_delay. -/
theorem processKnownProjectReview_deadline_wins (env : Env)
    (settings : UserSettings) (inW : Bool) (req : ReviewRequest) :
    ((req.reviewStartTime - settings.responseDeadlineShiftMinutes * 60 ≤ env.now ∨
      req.reviewStartTime - env.now ≤ settings.slotShiftThresholdMinutes * 60) →
      processKnownProjectReview env settings inW req =
        ([], { req with status := .needToApprove })) ∧
    (¬(req.reviewStartTime - settings.responseDeadlineShiftMinutes * 60 ≤ env.now ∨
       req.reviewStartTime - env.now ≤ settings.slotShiftThresholdMinutes * 60) →
      processKnownProjectReview env settings inW req =
        ([], if inW then { req with status := .whitelisted }
             else { req with
                     status := .notWhitelisted,
                     nonWhitelistCancelAt :=
                       some (env.now + settings.nonWhitelistCancelDelayMinutes * 60) })) := by
  constructor <;> intro h
  · unfold processKnownProjectReview
    rw [if_pos ((needToAskNow_iff env settings req).mpr h)]
  · unfold processKnownProjectReview
    rw [if_neg (fun habs => h ((needToAskNow_iff env settings req).mp habs))]
    unfold calculateNonWhitelistCancelTime
    cases inW <;> simp

/-- C4 witness: at now = deadline with the project whitelisted, the
review still goes to NEED_TO_APPROVE (deadline wins). -/
theorem processKnownProjectReview_deadline_wins_witness :
    (processKnownProjectReview (mkEnv 1768128000) settings0 true reqKnown4).2.status =
      Status.needToApprove := by
  have h := (processKnownProjectReview_deadline_wins (mkEnv 1768128000) settings0
    true reqKnown4).1 (Or.inl (by decide))
  rw [h]

/-- C5: NEED_TO_APPROVE advances to WAITING_FOR_APPROVE, recording
decision_deadline = review_start - response_deadline_shift and the chat
message id, only when the prompt send returned a message id; a failed
send leaves the review unchanged, and NEED_TO_APPROVE is among the
statuses the driver re-fetches next tick. -/
theorem processNeedToApprove_commits_only_after_send (env : Env) (user : User)
    (settings : UserSettings) (req : ReviewRequest) :
    (env.sendResult req.id = none →
      (processNeedToApprove env user settings req).2 = req) ∧
    (∀ m : Int, env.sendResult req.id = some m →
      (processNeedToApprove env user settings req).2 =
        { req with
           status := .waitingForApprove,
           decisionDeadline := some (req.reviewStartTime -
             settings.responseDeadlineShiftMinutes * 60),
           telegramMessageId := some (toString m) }) ∧
    Status.needToApprove ∈ intermediateStatuses := by
  refine ⟨?_, ?_, by decide⟩
  · intro h
    unfold processNeedToApprove
    rw [h]
  · intro m h
    unfold processNeedToApprove calculateDecisionDeadline
    rw [h]

/-- C5 witness: with a successful send (message id 77) the fixture review
is advanced and stamped; with the failing-send environment it stays. -/
theorem processNeedToApprove_commits_only_after_send_witness :
    (processNeedToApprove envSend userAlice settings0 reqNeed5).2.status =
        Status.waitingForApprove ∧
    (processNeedToApprove (mkEnv 1768128000) userAlice settings0 reqNeed5).2 = reqNeed5 := by
  constructor
  · have h := (processNeedToApprove_commits_only_after_send envSend userAlice
      settings0 reqNeed5).2.1 77 rfl
    rw [h]
  · exact (processNeedToApprove_commits_only_after_send (mkEnv 1768128000) userAlice
      settings0 reqNeed5).1 rfl

/-- C6: the claim (and the help text in commands.go) say set_deadline_shift
accepts 1-60; the handler is called with minimum 20, so the in-range
value 10 is rejected with "Value must be between 20 and 60". -/
theorem handleSetDeadlineShift_rejects_in_claimed_range :
    handleSetDeadlineShift true "10" =
      SettingOutcome.outOfRange "Value must be between 20 and 60" ∧
    (1 : Int) ≤ 10 ∧ (10 : Int) ≤ 60 := by
  exact ⟨by decide, by decide, by decide⟩

/-- C7 counterexample: with the empty review id the round trip fails:
format yields "APPROVE:", which the parser rejects (empty id part). -/
theorem parseCallbackData_empty_id_not_roundtrip :
    parseCallbackData (formatCallbackData "APPROVE" "") = none ∧
    parseCallbackData (formatCallbackData "APPROVE" "") ≠ some ("APPROVE", "") := by
  exact ⟨by decide, by decide⟩

/-- splitData finds the first colon: a colon-free first component is
recovered exactly, with the remainder (later colons included) intact. -/
theorem splitDataAux_append (pre post : List Char) (h : ':' ∉ pre) :
    splitDataAux (pre ++ ':' :: post) = some (pre, post) := by
  induction pre with
  | nil => simp [splitDataAux]
  | cons c cs ih =>
    simp only [List.mem_cons, not_or] at h
    simp only [List.cons_append, splitDataAux, List.append_eq]
    rw [if_neg (fun hc => h.1 hc.symm), ih h.2]

/-- C7 (amended): for every action in APPROVE, DECLINE and every nonempty
review id — colons and all other characters included — parsing the
formatted payload returns the original pair. -/
theorem parseCallbackData_roundtrip_nonempty (action id : String)
    (hA : action = "APPROVE" ∨ action = "DECLINE") (hid : id ≠ "") :
    parseCallbackData (formatCallbackData action id) = some (action, id) := by
  have hdata : id.data ≠ [] := by
    intro hd
    apply hid
    cases id
    simp_all
  have hsplit : splitDataAux (formatCallbackData action id).data =
      some (action.data, id.data) := by
    have hcolon : ':' ∉ action.data := by
      rcases hA with h | h <;> subst h <;> decide
    have hc : (":" : String).data = [':'] := rfl
    have : (formatCallbackData action id).data = action.data ++ ':' :: id.data := by
      unfold formatCallbackData
      rw [String.data_append, String.data_append, hc, List.append_assoc]
      rfl
    rw [this]
    exact splitDataAux_append action.data id.data hcolon
  unfold parseCallbackData
  rw [hsplit]
  dsimp only
  have hmkA : String.mk action.data = action := rfl
  have hmkI : String.mk id.data = id := rfl
  rw [if_pos ⟨by rw [hmkA]; exact hA, hdata⟩, hmkA, hmkI]

/-- C7 witness: the round trip at an id containing further colons. -/
theorem parseCallbackData_roundtrip_nonempty_witness :
    parseCallbackData (formatCallbackData "APPROVE" "550e8400:e29b-41d4") =
      some ("APPROVE", "550e8400:e29b-41d4") :=
  parseCallbackData_roundtrip_nonempty "APPROVE" "550e8400:e29b-41d4"
    (Or.inl rfl) (by decide)

/-- C10: the boolean setting commands never reject their argument: every
argument is stored with a success reply, and the stored value is false
exactly for a trimmed, lowercased false/no/0/off — every other argument,
the empty string included, stores true. -/
theorem handleBooleanSetting_always_stores (field arg : String) :
    ∃ v reply, handleBooleanSetting true field arg =
        BoolSettingOutcome.stored field v reply ∧
      (v = false ↔ (toLowerString (trimString arg) = "false" ∨
                    toLowerString (trimString arg) = "no" ∨
                    toLowerString (trimString arg) = "0" ∨
                    toLowerString (trimString arg) = "off")) := by
  refine ⟨_, _, rfl, ?_⟩
  simp only [Bool.not_eq_false', Bool.or_eq_true, beq_iff_eq]
  tauto

/-! Stepping a review request never changes which calendar slot it guards. -/

/-- processUnknownProjectReview leaves the calendar slot id unchanged. -/
theorem processUnknownProjectReview_slot (env : Env) (req : ReviewRequest) :
    (processUnknownProjectReview env req).2.calendarSlotId = req.calendarSlotId := by
  unfold processUnknownProjectReview
  cases env.resolveProject req.notificationId with
  | none => rfl
  | some pf => cases pf; rfl

/-- processKnownProjectReview leaves the calendar slot id unchanged. -/
theorem processKnownProjectReview_slot (env : Env) (settings : UserSettings)
    (inW : Bool) (req : ReviewRequest) :
    (processKnownProjectReview env settings inW req).2.calendarSlotId =
      req.calendarSlotId := by
  unfold processKnownProjectReview
  dsimp only
  split
  · rfl
  · split <;> rfl

/-- processWhitelisted leaves the calendar slot id unchanged. -/
theorem processWhitelisted_slot (env : Env) (settings : UserSettings)
    (req : ReviewRequest) :
    (processWhitelisted env settings req).2.calendarSlotId = req.calendarSlotId := by
  unfold processWhitelisted
  dsimp only
  split
  · split
    · rfl
    · split <;> rfl
  · rfl

/-- processNotWhitelisted leaves the calendar slot id unchanged. -/
theorem processNotWhitelisted_slot (env : Env) (settings : UserSettings)
    (req : ReviewRequest) :
    (processNotWhitelisted env settings req).2.calendarSlotId = req.calendarSlotId := by
  unfold processNotWhitelisted
  cases req.nonWhitelistCancelAt with
  | none => rfl
  | some c =>
    dsimp only
    split <;> rfl

/-- processNeedToApprove leaves the calendar slot id unchanged. -/
theorem processNeedToApprove_slot (env : Env) (user : User)
    (settings : UserSettings) (req : ReviewRequest) :
    (processNeedToApprove env user settings req).2.calendarSlotId =
      req.calendarSlotId := by
  unfold processNeedToApprove
  cases env.sendResult req.id <;> rfl

/-- processWaitingForApprove leaves the calendar slot id unchanged. -/
theorem processWaitingForApprove_slot (env : Env) (settings : UserSettings)
    (req : ReviewRequest) :
    (processWaitingForApprove env settings req).2.calendarSlotId =
      req.calendarSlotId := by
  unfold processWaitingForApprove
  cases req.decisionDeadline with
  | none => rfl
  | some d =>
    dsimp only
    split <;> rfl

/-- The full status dispatch leaves the calendar slot id unchanged. -/
theorem processReviewRequest_slot (env : Env) (user : User)
    (settings : UserSettings) (req : ReviewRequest) :
    (processReviewRequest env user settings req).2.calendarSlotId =
      req.calendarSlotId := by
  unfold processReviewRequest
  cases req.status
  case unknownProjectReview => exact processUnknownProjectReview_slot env req
  case knownProjectReview => exact processKnownProjectReview_slot env settings _ req
  case whitelisted => exact processWhitelisted_slot env settings req
  case notWhitelisted => exact processNotWhitelisted_slot env settings req
  case needToApprove => exact processNeedToApprove_slot env user settings req
  case waitingForApprove => exact processWaitingForApprove_slot env settings req
  all_goals rfl

/-- Stepping a stored review (whether or not it is intermediate) keeps
its calendar slot id. -/
theorem stepIfIntermediate_slot (env : Env) (user : User)
    (settings : UserSettings) (r : ReviewRequest) :
    (stepIfIntermediate env user settings r).calendarSlotId = r.calendarSlotId := by
  unfold stepIfIntermediate
  split
  · exact processReviewRequest_slot env user settings r
  · rfl

/-! Booking-ingestion lemmas. -/

/-- Ingestion only appends: every stored review survives it. -/
theorem checkNewBookings_mem_mono (env : Env) (user : User) (r : ReviewRequest) :
    ∀ (bookings : List CalendarBooking) (reviews : List ReviewRequest),
      r ∈ reviews → r ∈ checkNewBookings env user reviews bookings := by
  intro bookings
  induction bookings with
  | nil => intro reviews h; exact h
  | cons b0 rest ih =>
    intro reviews h
    simp only [checkNewBookings]
    split
    · exact ih reviews h
    · exact ih _ (List.mem_append_left _ h)

/-- When a booking has no review for its slot, ingestion leaves the
output with a fresh UNKNOWN_PROJECT_REVIEW entry for that slot stamped
with the current tick time. -/
theorem checkNewBookings_creates (env : Env) (user : User) (b : CalendarBooking) :
    ∀ (bookings : List CalendarBooking) (reviews : List ReviewRequest),
      b ∈ bookings →
      (∀ r ∈ reviews, r.calendarSlotId ≠ b.eventSlotId) →
      ∃ r ∈ checkNewBookings env user reviews bookings,
        r.calendarSlotId = b.eventSlotId ∧ r.status = .unknownProjectReview ∧
        r.createdAt = env.now := by
  intro bookings
  induction bookings with
  | nil => intro reviews hb _; cases hb
  | cons b0 rest ih =>
    intro reviews hb hno
    simp only [checkNewBookings]
    split
    · rename_i hany
      rcases List.mem_cons.mp hb with rfl | hb2
      · rcases List.any_eq_true.mp hany with ⟨r, hr, hrs⟩
        exact absurd (by simpa using hrs) (hno r hr)
      · exact ih reviews hb2 hno
    · rename_i hany
      by_cases hslot : b0.eventSlotId = b.eventSlotId
      · refine ⟨newReviewRequest env user b0,
          checkNewBookings_mem_mono env user _ rest _
            (List.mem_append_right _ (List.mem_singleton.mpr rfl)), hslot, rfl, rfl⟩
      · rcases List.mem_cons.mp hb with rfl | hb2
        · exact absurd rfl hslot
        · apply ih _ hb2
          intro r hr
          rcases List.mem_append.mp hr with hr | hr
          · exact hno r hr
          · rcases List.mem_singleton.mp hr with rfl
            exact hslot

/-- When some review (of any status) already guards a slot, ingestion
never creates another review for that slot: the filtered sublist for the
slot is unchanged. -/
theorem checkNewBookings_filter_stable (env : Env) (user : User) (s : String) :
    ∀ (bookings : List CalendarBooking) (reviews : List ReviewRequest),
      (∃ r ∈ reviews, r.calendarSlotId = s) →
      (checkNewBookings env user reviews bookings).filter
          (fun r => r.calendarSlotId == s) =
        reviews.filter (fun r => r.calendarSlotId == s) := by
  intro bookings
  induction bookings with
  | nil => intro reviews _; rfl
  | cons b0 rest ih =>
    intro reviews hs
    simp only [checkNewBookings]
    split
    · exact ih reviews hs
    · rename_i hany
      rcases hs with ⟨r, hr, hrs⟩
      have hbs : b0.eventSlotId ≠ s := by
        intro hbs
        apply hany
        exact List.any_eq_true.mpr ⟨r, hr, by simp [hrs, hbs]⟩
      rw [ih _ ⟨r, List.mem_append_left _ hr, hrs⟩, List.filter_append]
      have : (newReviewRequest env user b0).calendarSlotId ≠ s := hbs
      simp [this]

/-- Ingestion preserves pairwise distinctness of guarded slots: a review
is created only for a slot no current review guards. -/
theorem checkNewBookings_pairwise (env : Env) (user : User) :
    ∀ (bookings : List CalendarBooking) (reviews : List ReviewRequest),
      reviews.Pairwise (fun a c => a.calendarSlotId ≠ c.calendarSlotId) →
      (checkNewBookings env user reviews bookings).Pairwise
        (fun a c => a.calendarSlotId ≠ c.calendarSlotId) := by
  intro bookings
  induction bookings with
  | nil => intro reviews h; exact h
  | cons b0 rest ih =>
    intro reviews h
    simp only [checkNewBookings]
    split
    · exact ih reviews h
    · rename_i hany
      apply ih
      rw [List.pairwise_append]
      refine ⟨h, by simp, ?_⟩
      intro r hr x hx
      rcases List.mem_singleton.mp hx with rfl
      intro heq
      apply hany
      exact List.any_eq_true.mpr ⟨r, hr, by simpa [newReviewRequest] using heq⟩

/-- The stepping phase preserves the filtered sublist length for a slot. -/
theorem filter_map_step (env : Env) (user : User) (settings : UserSettings)
    (s : String) (reviews : List ReviewRequest) :
    ((reviews.map (stepIfIntermediate env user settings)).filter
        (fun r => r.calendarSlotId == s)).length =
      (reviews.filter (fun r => r.calendarSlotId == s)).length := by
  induction reviews with
  | nil => rfl
  | cons r rs ih =>
    simp only [List.map_cons, List.filter_cons, stepIfIntermediate_slot]
    split <;> simp [ih]

/-- C8: within one tick every existing review is stepped before any new
booking is ingested: a booking whose slot had no review yields, at the
end of the tick, a review still in UNKNOWN_PROJECT_REVIEW with
created_at equal to the tick time — it was created but never advanced
within the same tick. -/
theorem processUser_new_booking_not_advanced (env : Env) (user : User)
    (settings : UserSettings) (reviews : List ReviewRequest)
    (bookings : List CalendarBooking) (b : CalendarBooking)
    (hb : b ∈ bookings)
    (hno : ∀ r ∈ reviews, r.calendarSlotId ≠ b.eventSlotId) :
    ∃ r ∈ processUser env user settings reviews bookings,
      r.calendarSlotId = b.eventSlotId ∧ r.status = .unknownProjectReview ∧
      r.createdAt = env.now := by
  unfold processUser
  apply checkNewBookings_creates env user b bookings _ hb
  intro r hr
  rcases List.mem_map.mp hr with ⟨r0, hr0, rfl⟩
  rw [stepIfIntermediate_slot]
  exact hno r0 hr0

/-- Booking fixture guarding slot-9 for the C8 witness. -/
def booking8 : CalendarBooking :=
  { id := "booking-8", eventSlotId := "slot-9", startTime := 1768129200,
    endTime := 1768136400 }

/-- C8 witness: over a store holding only the terminal reqApproved2, a
new booking for slot-9 ends the tick unadvanced. -/
theorem processUser_new_booking_not_advanced_witness :
    ∃ r ∈ processUser (mkEnv 1768125600) userAlice settings0 [reqApproved2] [booking8],
      r.calendarSlotId = booking8.eventSlotId ∧ r.status = .unknownProjectReview ∧
      r.createdAt = (mkEnv 1768125600).now :=
  processUser_new_booking_not_advanced (mkEnv 1768125600) userAlice settings0
    [reqApproved2] [booking8] booking8 (by decide) (by decide)

/-- C9: one tick preserves pairwise distinctness of guarded slot ids, and
for a booking whose slot already has a review request — terminal or not —
no further review is ever created for that slot: the filtered count for
the slot is unchanged. -/
theorem processUser_slot_unique_preserved (env : Env) (user : User)
    (settings : UserSettings) (reviews : List ReviewRequest)
    (bookings : List CalendarBooking) :
    (reviews.Pairwise (fun a c => a.calendarSlotId ≠ c.calendarSlotId) →
      (processUser env user settings reviews bookings).Pairwise
        (fun a c => a.calendarSlotId ≠ c.calendarSlotId)) ∧
    (∀ b ∈ bookings, (∃ r ∈ reviews, r.calendarSlotId = b.eventSlotId) →
      ((processUser env user settings reviews bookings).filter
          (fun r => r.calendarSlotId == b.eventSlotId)).length =
        (reviews.filter (fun r => r.calendarSlotId == b.eventSlotId)).length) := by
  constructor
  · intro h
    unfold processUser
    apply checkNewBookings_pairwise
    rw [List.pairwise_map]
    refine h.imp ?_
    intro a c hac
    rw [stepIfIntermediate_slot, stepIfIntermediate_slot]
    exact hac
  · rintro b _ ⟨r, hr, hrs⟩
    unfold processUser
    rw [checkNewBookings_filter_stable env user b.eventSlotId bookings _
      ⟨stepIfIntermediate env user settings r, List.mem_map_of_mem _ hr,
        by rw [stepIfIntermediate_slot]; exact hrs⟩]
    exact filter_map_step env user settings b.eventSlotId reviews

/-- Terminal review already guarding slot-9, for the C9 witness. -/
def reqCancelled9 : ReviewRequest :=
  { id := "req-9", reviewerLogin := "alice", projectName := some "libft"
    reviewStartTime := 1768129200, calendarSlotId := "slot-9"
    status := .autoCancelled, createdAt := 1768120000, decidedAt := some 1768124000 }

/-- C9 witness: a slot whose review was auto-cancelled is skipped when the
slot is re-booked — the review count for the slot stays at one. -/
theorem processUser_slot_unique_preserved_witness :
    ((processUser (mkEnv 1768125600) userAlice settings0 [reqCancelled9] [booking8]).filter
        (fun r => r.calendarSlotId == booking8.eventSlotId)).length =
      (([reqCancelled9] : List ReviewRequest).filter
        (fun r => r.calendarSlotId == booking8.eventSlotId)).length :=
  (processUser_slot_unique_preserved (mkEnv 1768125600) userAlice settings0
    [reqCancelled9] [booking8]).2 booking8 (by decide) ⟨reqCancelled9, by decide, by decide⟩

end ReviewSlotGuard
